import Mathlib

/-!
Verification of the fullstack-metrics-logger backend collector.

The repository ships two variants of the Express backend collector:
* the current one (with `userMetrics`), whose `summarizeMetrics` lives inside
  `captureBackendMetrics` and whose `getMetrics(event?)` both records usage
  events and returns `{metrics, summary}` — embedded below without suffix;
* an older variant (`src/core/backendMetrics.ts`), without `userMetrics`,
  returning `getMetrics()` and `summarizeMetrics()` separately — embedded
  below with the `V1` suffix.

Numbers are embedded as exact rationals (`ℚ`); byte counts, which are
integral in every recorded sample, as `ℕ`.  JavaScript string rendering
(`toFixed`, template literals) is embedded by exact fixed-point formatting.
-/

/-- Render the integer `n` (the value pre-scaled by `10 ^ d`) as a decimal
string with `d` fractional digits, as JavaScript prints the result of
`toFixed(d)`. -/
def fixedRender (d : Nat) (n : Int) : String :=
  if d = 0 then toString n
  else
    let sign := if n < 0 then "-" else ""
    let s := toString n.natAbs
    let s := if s.length < d + 1 then String.mk (List.replicate (d + 1 - s.length) '0') ++ s else s
    let k := s.length - d
    sign ++ s.take k ++ "." ++ s.drop k

/-- Model of `Number.prototype.toFixed(d)`: the integer closest to
`q * 10 ^ d` (a tie picks the larger integer, per the ECMAScript algorithm),
rendered with `d` fractional digits. -/
def toFixed (d : Nat) (q : ℚ) : String :=
  fixedRender d ⌊q * 10 ^ d + 1 / 2⌋

/-- `formatMs` from both collector variants: `ms < 1000` renders as
`"X.XX ms"`, otherwise `ms / 1000` renders as `"X.XX s"`. -/
def formatMs (ms : ℚ) : String :=
  if ms < 1000 then toFixed 2 ms ++ " ms" else toFixed 2 (ms / 1000) ++ " s"

/-- `formatBytes` from both collector variants, restricted to the integral
byte counts the collector stores. -/
def formatBytes (bytes : Nat) : String :=
  if bytes < 1024 then toString bytes ++ " B"
  else if bytes < 1024 * 1024 then toFixed 2 ((bytes : ℚ) / 1024) ++ " KB"
  else if bytes < 1024 * 1024 * 1024 then toFixed 2 ((bytes : ℚ) / (1024 * 1024)) ++ " MB"
  else toFixed 2 ((bytes : ℚ) / (1024 * 1024 * 1024)) ++ " GB"

/-- `formatLoadAvg` (V1), also written inline in the current variant as
`loadAvg.map(l => l.toFixed(2)).join(', ')`. -/
def formatLoadAvg (load : List ℚ) : String :=
  String.intercalate ", " (load.map (toFixed 2))

/-- `avg` from both summarizers:
`arr.length ? arr.reduce((a, b) => a + b, 0) / arr.length : 0`. -/
def avg : List ℚ → ℚ
  | [] => 0
  | arr => arr.foldl (· + ·) 0 / arr.length

/-- `Math.max(...arr)` on a nonempty list; the guarded caller maps the empty
list to 0. -/
def listMax : List ℚ → ℚ
  | [] => 0
  | h :: t => t.foldl max h

/-! ## The metrics state (`BackendMetrics` interface) -/

structure HttpRequests where
  totalCount : Nat
  errorCount : Nat
  durationsMs : List ℚ
  deriving Repr, DecidableEq

structure GcEvent where
  type : Option Nat
  durationMs : ℚ
  timestamp : Nat
  deriving Repr, DecidableEq

structure EventLoopSample where
  meanMs : ℚ
  maxMs : ℚ
  minMs : ℚ
  p50Ms : ℚ
  p99Ms : ℚ
  timestamp : Nat
  deriving Repr, DecidableEq

structure CpuUsage where
  user : ℚ
  system : ℚ
  deriving Repr, DecidableEq

/-- `process.memoryUsage()`; the JavaScript key `external` is embedded as
`extBytes`. -/
structure MemoryUsage where
  rss : Nat
  heapTotal : Nat
  heapUsed : Nat
  extBytes : Nat
  arrayBuffers : Nat
  deriving Repr, DecidableEq

structure ProcessStat where
  memory : MemoryUsage
  cpu : CpuUsage
  timestamp : Nat
  deriving Repr, DecidableEq

structure OsStat where
  loadAvg : List ℚ
  freeMemBytes : Nat
  totalMemBytes : Nat
  uptimeSec : ℚ
  cpuCores : Nat
  timestamp : Nat
  deriving Repr, DecidableEq

structure HandleSample where
  count : Nat
  timestamp : Nat
  deriving Repr, DecidableEq

structure ErrorCounts where
  uncaughtExceptions : Nat
  unhandledRejections : Nat
  deriving Repr, DecidableEq

/-- `customEvents` is a JavaScript object used as a string-keyed counter map;
it is embedded as an insertion-ordered association list. -/
structure UserMetrics where
  activeUsers : Nat
  sessionDurationMs : List ℚ
  pageViews : Nat
  customEvents : List (String × Nat)
  deriving Repr, DecidableEq

structure BackendMetrics where
  httpRequests : HttpRequests
  garbageCollections : List GcEvent
  eventLoopDelays : List EventLoopSample
  processStats : List ProcessStat
  osStats : List OsStat
  activeHandles : List HandleSample
  errorCounts : ErrorCounts
  userMetrics : UserMetrics
  deriving Repr, DecidableEq

/-- The older variant's state: identical, minus `userMetrics`. -/
structure BackendMetricsV1 where
  httpRequests : HttpRequests
  garbageCollections : List GcEvent
  eventLoopDelays : List EventLoopSample
  processStats : List ProcessStat
  osStats : List OsStat
  activeHandles : List HandleSample
  errorCounts : ErrorCounts
  deriving Repr, DecidableEq

/-- The state literal built at the top of `captureBackendMetrics`. -/
def initMetrics : BackendMetrics :=
  { httpRequests := { totalCount := 0, errorCount := 0, durationsMs := [] }
    garbageCollections := []
    eventLoopDelays := []
    processStats := []
    osStats := []
    activeHandles := []
    errorCounts := { uncaughtExceptions := 0, unhandledRejections := 0 }
    userMetrics := { activeUsers := 0, sessionDurationMs := [], pageViews := 0, customEvents := [] } }

/-- The state literal built at the top of the older `captureBackendMetrics`. -/
def initMetricsV1 : BackendMetricsV1 :=
  { httpRequests := { totalCount := 0, errorCount := 0, durationsMs := [] }
    garbageCollections := []
    eventLoopDelays := []
    processStats := []
    osStats := []
    activeHandles := []
    errorCounts := { uncaughtExceptions := 0, unhandledRejections := 0 } }

/-- The request-timing middleware's finish callback: increments `totalCount`,
appends the elapsed duration, and increments `errorCount` iff the response
status is at least 400. -/
def recordRequest (status : Nat) (durationMs : ℚ) (m : BackendMetrics) : BackendMetrics :=
  { m with httpRequests :=
    { totalCount := m.httpRequests.totalCount + 1
      errorCount := if 400 ≤ status then m.httpRequests.errorCount + 1 else m.httpRequests.errorCount
      durationsMs := m.httpRequests.durationsMs ++ [durationMs] } }

/-! ## The summary report -/

structure HttpSummary where
  total : Nat
  errors : Nat
  errorRate : String
  avgDuration : String
  status : String
  deriving Repr, DecidableEq

structure GcSummary where
  avgPause : String
  maxPause : String
  status : String
  deriving Repr, DecidableEq

structure EventLoopSummary where
  meanDelay : String
  maxDelay : String
  status : String
  deriving Repr, DecidableEq

structure ProcessSummary where
  memoryUsage : String
  memoryPct : String
  cpuPct : String
  status : String
  deriving Repr, DecidableEq

structure OsSummary where
  loadAvg : String
  freeMem : String
  status : String
  deriving Repr, DecidableEq

structure HandlesSummary where
  current : Nat
  status : String
  deriving Repr, DecidableEq

structure ErrorsSummary where
  uncaughtExceptions : Nat
  unhandledRejections : Nat
  status : String
  deriving Repr, DecidableEq

structure EventCount where
  event : String
  count : Nat
  deriving Repr, DecidableEq

structure UserMetricsSummary where
  activeUsers : Nat
  pageViews : Nat
  customEvents : List EventCount
  status : String
  deriving Repr, DecidableEq

structure Summary where
  http : HttpSummary
  gc : GcSummary
  eventLoop : EventLoopSummary
  process : ProcessSummary
  os : OsSummary
  handles : HandlesSummary
  errors : ErrorsSummary
  userMetrics : UserMetricsSummary
  deriving Repr, DecidableEq

structure SummaryV1 where
  http : HttpSummary
  gc : GcSummary
  eventLoop : EventLoopSummary
  process : ProcessSummary
  os : OsSummary
  handles : HandlesSummary
  errors : ErrorsSummary
  deriving Repr, DecidableEq

/-! ## Current-variant summarizer (`summarizeMetrics` inside part_000) -/

/-- `errRate = totalReq ? (errCount / totalReq) * 100 : 0` (0 is the only
falsy count). -/
def httpErrRate (m : BackendMetrics) : ℚ :=
  if m.httpRequests.totalCount = 0 then 0
  else (m.httpRequests.errorCount : ℚ) / m.httpRequests.totalCount * 100

/-- `avgReqMs = avg(metrics.httpRequests.durationsMs)`. -/
def avgReqMs (m : BackendMetrics) : ℚ :=
  avg m.httpRequests.durationsMs

def httpSummary (m : BackendMetrics) : HttpSummary :=
  { total := m.httpRequests.totalCount
    errors := m.httpRequests.errorCount
    errorRate := toFixed 1 (httpErrRate m) ++ "%"
    avgDuration := formatMs (avgReqMs m)
    status := if httpErrRate m > 5 ∨ avgReqMs m > 500 then "Needs attention" else "OK" }

/-- `avgGcMs = avg(metrics.garbageCollections.map(g => g.durationMs))`. -/
def gcAvgMs (m : BackendMetrics) : ℚ :=
  avg (m.garbageCollections.map (·.durationMs))

def gcSummary (m : BackendMetrics) : GcSummary :=
  { avgPause := formatMs (gcAvgMs m)
    maxPause := formatMs (listMax (m.garbageCollections.map (·.durationMs)))
    status := if gcAvgMs m > 50 then "GC is slow" else "GC OK" }

/-- `loopMean = lastLoop.meanMs || 0`: the last recorded sample's mean, or 0
when the sequence is empty (the `|| 0` also maps a stored mean of exactly 0
to 0, which coincides). -/
def lastLoopMean (m : BackendMetrics) : ℚ :=
  match m.eventLoopDelays.getLast? with
  | some e => e.meanMs
  | none => 0

def lastLoopMax (m : BackendMetrics) : ℚ :=
  match m.eventLoopDelays.getLast? with
  | some e => e.maxMs
  | none => 0

def eventLoopSummary (m : BackendMetrics) : EventLoopSummary :=
  { meanDelay := formatMs (lastLoopMean m)
    maxDelay := formatMs (lastLoopMax m)
    status := if lastLoopMean m > 50 then "Event-loop lag" else "Loop OK" }

/-- `lastProc` defaults to `{ memory: { rss: 0 }, cpu: { user: 0, system: 0 } }`. -/
def lastRss (m : BackendMetrics) : Nat :=
  ((m.processStats.getLast?).map fun p => p.memory.rss).getD 0

def lastCpuTotal (m : BackendMetrics) : ℚ :=
  ((m.processStats.getLast?).map fun p => p.cpu.user + p.cpu.system).getD 0

/-- `lastOs` defaults to
`{ loadAvg: [0], totalMemBytes: 1, cpuCores: 1, freeMemBytes: 0 }`. -/
def lastTotalMem (m : BackendMetrics) : Nat :=
  ((m.osStats.getLast?).map fun o => o.totalMemBytes).getD 1

def lastCores (m : BackendMetrics) : Nat :=
  ((m.osStats.getLast?).map fun o => o.cpuCores).getD 1

def lastFreeMem (m : BackendMetrics) : Nat :=
  ((m.osStats.getLast?).map fun o => o.freeMemBytes).getD 0

def lastLoadAvg (m : BackendMetrics) : List ℚ :=
  ((m.osStats.getLast?).map fun o => o.loadAvg).getD [0]

/-- `memPct = lastOs.totalMemBytes ? (memUsage / lastOs.totalMemBytes) * 100 : 0`. -/
def memPct (m : BackendMetrics) : ℚ :=
  if lastTotalMem m = 0 then 0 else (lastRss m : ℚ) / lastTotalMem m * 100

/-- `cpuPct = lastOs.cpuCores ? ((user + system) / 1e6 / cpuCores) * 100 : 0`. -/
def cpuPct (m : BackendMetrics) : ℚ :=
  if lastCores m = 0 then 0 else lastCpuTotal m / 1000000 / lastCores m * 100

def processSummary (m : BackendMetrics) : ProcessSummary :=
  { memoryUsage := formatBytes (lastRss m)
    memoryPct := toFixed 1 (memPct m) ++ "%"
    cpuPct := toFixed 1 (cpuPct m) ++ "%"
    status := if memPct m > 80 ∨ cpuPct m > 80 then "High resource use" else "Resource use OK" }

/-- `lastOs.loadAvg[0] > lastOs.cpuCores`; an out-of-range index is
`undefined`, and any comparison against `undefined` is false. -/
def osSummary (m : BackendMetrics) : OsSummary :=
  { loadAvg := formatLoadAvg (lastLoadAvg m)
    freeMem := formatBytes (lastFreeMem m)
    status :=
      match (lastLoadAvg m).head? with
      | some l => if l > (lastCores m : ℚ) then "Load exceeds cores" else "OS load OK"
      | none => "OS load OK" }

def lastHandles (m : BackendMetrics) : Nat :=
  ((m.activeHandles.getLast?).map (·.count)).getD 0

def handlesSummary (m : BackendMetrics) : HandlesSummary :=
  { current := lastHandles m
    status := if lastHandles m > 1000 then "Too many handles" else "Handles OK" }

def errorsSummary (m : BackendMetrics) : ErrorsSummary :=
  { uncaughtExceptions := m.errorCounts.uncaughtExceptions
    unhandledRejections := m.errorCounts.unhandledRejections
    status :=
      if m.errorCounts.uncaughtExceptions + m.errorCounts.unhandledRejections > 0 then
        "Runtime errors detected"
      else "No runtime errors" }

def userMetricsSummary (m : BackendMetrics) : UserMetricsSummary :=
  { activeUsers := m.userMetrics.activeUsers
    pageViews := m.userMetrics.pageViews
    customEvents := m.userMetrics.customEvents.map fun p => { event := p.1, count := p.2 }
    status := if m.userMetrics.pageViews > 0 then "User activity detected" else "No user activity" }

def summarizeMetrics (m : BackendMetrics) : Summary :=
  { http := httpSummary m
    gc := gcSummary m
    eventLoop := eventLoopSummary m
    process := processSummary m
    os := osSummary m
    handles := handlesSummary m
    errors := errorsSummary m
    userMetrics := userMetricsSummary m }

/-! ## Current-variant `getMetrics(event?)` -/

/-- `customEvents[event] = (customEvents[event] || 0) + 1` on the
insertion-ordered counter map: an existing key is incremented in place, a new
key is appended with count 1. -/
def bumpEvent (k : String) : List (String × Nat) → List (String × Nat)
  | [] => [(k, 1)]
  | (k', v) :: t => if k' = k then (k', v + 1) :: t else (k', v) :: bumpEvent k t

/-- Key lookup in the insertion-ordered counter map. -/
def lookupEvent (k : String) : List (String × Nat) → Option Nat
  | [] => none
  | (k', v) :: t => if k' = k then some v else lookupEvent k t

/-- The event-tag branch of `getMetrics`: `if (event)` is JavaScript
truthiness, so an omitted tag and the empty string both skip recording;
`"pageView"` increments `pageViews`; any other tag bumps `customEvents`. -/
def applyTag : Option String → BackendMetrics → BackendMetrics
  | none, m => m
  | some t, m =>
    if t = "" then m
    else if t = "pageView" then
      { m with userMetrics := { m.userMetrics with pageViews := m.userMetrics.pageViews + 1 } }
    else
      { m with userMetrics :=
        { m.userMetrics with customEvents := bumpEvent t m.userMetrics.customEvents } }

structure FormattedHttpRequests where
  totalCount : Nat
  errorCount : Nat
  durationsMs : List String
  deriving Repr, DecidableEq

structure FormattedEventLoopSample where
  meanMs : String
  maxMs : String
  minMs : String
  p50Ms : String
  p99Ms : String
  timestamp : Nat
  deriving Repr, DecidableEq

structure FormattedMemoryUsage where
  rss : String
  heapTotal : String
  heapUsed : String
  extBytes : String
  arrayBuffers : String
  deriving Repr, DecidableEq

structure FormattedProcessStat where
  memory : FormattedMemoryUsage
  cpu : CpuUsage
  timestamp : Nat
  deriving Repr, DecidableEq

structure FormattedOsStat where
  loadAvg : List String
  freeMemBytes : String
  totalMemBytes : String
  uptimeSec : String
  cpuCores : Nat
  timestamp : Nat
  deriving Repr, DecidableEq

/-- The deep-copied, presentation-formatted snapshot `clone`. -/
structure FormattedMetrics where
  httpRequests : FormattedHttpRequests
  garbageCollections : List GcEvent
  eventLoopDelays : List FormattedEventLoopSample
  processStats : List FormattedProcessStat
  osStats : List FormattedOsStat
  activeHandles : List HandleSample
  errorCounts : ErrorCounts
  userMetrics : UserMetrics
  deriving Repr, DecidableEq

/-- The value-level content of `JSON.parse(JSON.stringify(metrics))` followed
by the presentation transforms applied to the clone. -/
def formatSnapshot (m : BackendMetrics) : FormattedMetrics :=
  { httpRequests :=
      { totalCount := m.httpRequests.totalCount
        errorCount := m.httpRequests.errorCount
        durationsMs := m.httpRequests.durationsMs.map formatMs }
    garbageCollections := m.garbageCollections
    eventLoopDelays := m.eventLoopDelays.map fun e =>
      { meanMs := formatMs e.meanMs
        maxMs := formatMs e.maxMs
        minMs := formatMs e.minMs
        p50Ms := formatMs e.p50Ms
        p99Ms := formatMs e.p99Ms
        timestamp := e.timestamp }
    processStats := m.processStats.map fun p =>
      { memory :=
          { rss := formatBytes p.memory.rss
            heapTotal := formatBytes p.memory.heapTotal
            heapUsed := formatBytes p.memory.heapUsed
            extBytes := formatBytes p.memory.extBytes
            arrayBuffers := formatBytes p.memory.arrayBuffers }
        cpu := p.cpu
        timestamp := p.timestamp }
    osStats := m.osStats.map fun o =>
      { loadAvg := o.loadAvg.map (toFixed 2)
        freeMemBytes := formatBytes o.freeMemBytes
        totalMemBytes := formatBytes o.totalMemBytes
        uptimeSec := toFixed 0 o.uptimeSec ++ " s"
        cpuCores := o.cpuCores
        timestamp := o.timestamp }
    activeHandles := m.activeHandles
    errorCounts := m.errorCounts
    userMetrics := m.userMetrics }

structure GetMetricsResult where
  metrics : FormattedMetrics
  summary : Summary
  deriving Repr, DecidableEq

/-- `getMetrics(event?)`: records the optional usage tag, then returns the
formatted snapshot together with a freshly computed summary.  The pair's
second component is the live state after the call. -/
def getMetrics (event : Option String) (m : BackendMetrics) : GetMetricsResult × BackendMetrics :=
  let m' := applyTag event m
  ({ metrics := formatSnapshot m', summary := summarizeMetrics m' }, m')

/-! ## Older-variant summarizer (`src/core/backendMetrics.ts`) -/

def httpErrRateV1 (m : BackendMetricsV1) : ℚ :=
  if m.httpRequests.totalCount = 0 then 0
  else (m.httpRequests.errorCount : ℚ) / m.httpRequests.totalCount * 100

def avgReqMsV1 (m : BackendMetricsV1) : ℚ :=
  avg m.httpRequests.durationsMs

def httpSummaryV1 (m : BackendMetricsV1) : HttpSummary :=
  { total := m.httpRequests.totalCount
    errors := m.httpRequests.errorCount
    errorRate := toFixed 1 (httpErrRateV1 m) ++ "%"
    avgDuration := formatMs (avgReqMsV1 m)
    status := if httpErrRateV1 m > 5 ∨ avgReqMsV1 m > 500 then "Needs attention" else "OK" }

def gcAvgMsV1 (m : BackendMetricsV1) : ℚ :=
  avg (m.garbageCollections.map (·.durationMs))

/-- `maxGcMs = Math.max(...gcDurations, 0)`. -/
def gcSummaryV1 (m : BackendMetricsV1) : GcSummary :=
  { avgPause := formatMs (gcAvgMsV1 m)
    maxPause := formatMs ((m.garbageCollections.map (·.durationMs)).foldl max 0)
    status := if gcAvgMsV1 m > 50 then "GC is slow" else "GC OK" }

/-- The older summarizer destructures
`const { mean: loopMean = 0, max: loopMax = 0 } = lastLoop as any` — but the
stored samples carry `meanMs`/`maxMs`, not `mean`/`max`, so both destructured
values always fall back to their default 0, whatever the last sample holds. -/
def eventLoopSummaryV1 (_m : BackendMetricsV1) : EventLoopSummary :=
  let loopMean : ℚ := 0
  let loopMax : ℚ := 0
  { meanDelay := formatMs loopMean
    maxDelay := formatMs loopMax
    status := if loopMean > 50 then "Event-loop lag" else "Loop OK" }

/-- `lastProc = processStats[...] || { memory: {}, cpu: {} }`: on the default,
`memory.rss`, `cpu.user` and `cpu.system` are all `undefined` (`none` here),
and arithmetic on them yields NaN. -/
def lastRssV1 (m : BackendMetricsV1) : Option Nat :=
  (m.processStats.getLast?).map fun p => p.memory.rss

def lastCpuTotalV1 (m : BackendMetricsV1) : Option ℚ :=
  (m.processStats.getLast?).map fun p => p.cpu.user + p.cpu.system

/-- `lastOs = osStats[...] || { loadAvg: [], totalMemBytes: 1 }`. -/
def lastTotalMemV1 (m : BackendMetricsV1) : Nat :=
  ((m.osStats.getLast?).map fun o => o.totalMemBytes).getD 1

/-- `memPct = (memUsage / lastOs.totalMemBytes) * 100`; `none` stands for the
NaN produced when `memUsage` is `undefined`. -/
def memPctV1 (m : BackendMetricsV1) : Option ℚ :=
  (lastRssV1 m).map fun r => (r : ℚ) / lastTotalMemV1 m * 100

/-- `cpuPct = (cpuUser / 1e6 / os.cpus().length) * 100`; the live
`os.cpus().length` is passed in as `cores`. -/
def cpuPctV1 (cores : Nat) (m : BackendMetricsV1) : Option ℚ :=
  (lastCpuTotalV1 m).map fun c => c / 1000000 / cores * 100

/-- NaN comparisons are false; `formatBytes(undefined)` falls through every
`<` test and renders `"NaN GB"`; `NaN.toFixed(1)` renders `"NaN"`. -/
def processSummaryV1 (cores : Nat) (m : BackendMetricsV1) : ProcessSummary :=
  { memoryUsage :=
      match lastRssV1 m with
      | some b => formatBytes b
      | none => "NaN GB"
    memoryPct :=
      (match memPctV1 m with
        | some q => toFixed 1 q
        | none => "NaN") ++ "%"
    cpuPct :=
      (match cpuPctV1 cores m with
        | some q => toFixed 1 q
        | none => "NaN") ++ "%"
    status :=
      if ((memPctV1 m).elim false fun q => decide (q > 80))
          || ((cpuPctV1 cores m).elim false fun q => decide (q > 80)) then
        "High resource use"
      else "Resource use OK" }

/-- On the `{ loadAvg: [], totalMemBytes: 1 }` default, `loadAvg[0]`,
`cpuCores` and `freeMemBytes` are all `undefined`: the load comparison is
false and `formatBytes(undefined)` renders `"NaN GB"`. -/
def osSummaryV1 (m : BackendMetricsV1) : OsSummary :=
  let loadList := ((m.osStats.getLast?).map fun o => o.loadAvg).getD []
  { loadAvg := formatLoadAvg loadList
    freeMem :=
      match (m.osStats.getLast?).map fun o => o.freeMemBytes with
      | some b => formatBytes b
      | none => "NaN GB"
    status :=
      match loadList.head?, (m.osStats.getLast?).map fun o => o.cpuCores with
      | some l, some c => if l > (c : ℚ) then "Load exceeds cores" else "OS load OK"
      | _, _ => "OS load OK" }

def lastHandlesV1 (m : BackendMetricsV1) : Nat :=
  ((m.activeHandles.getLast?).map (·.count)).getD 0

def handlesSummaryV1 (m : BackendMetricsV1) : HandlesSummary :=
  { current := lastHandlesV1 m
    status := if lastHandlesV1 m > 1000 then "Too many handles" else "Handles OK" }

def errorsSummaryV1 (m : BackendMetricsV1) : ErrorsSummary :=
  { uncaughtExceptions := m.errorCounts.uncaughtExceptions
    unhandledRejections := m.errorCounts.unhandledRejections
    status :=
      if m.errorCounts.uncaughtExceptions + m.errorCounts.unhandledRejections > 0 then
        "Runtime errors detected"
      else "No runtime errors" }

def summarizeMetricsV1 (cores : Nat) (m : BackendMetricsV1) : SummaryV1 :=
  { http := httpSummaryV1 m
    gc := gcSummaryV1 m
    eventLoop := eventLoopSummaryV1 m
    process := processSummaryV1 cores m
    os := osSummaryV1 m
    handles := handlesSummaryV1 m
    errors := errorsSummaryV1 m }

/-! ## Spec-side definition for the byte-formatting claim -/

/-- Modelled from the spec: "byte counts render in the largest unit
(B/KB/MB/GB) such that the scaled value is < 1024 in that unit, 2 fractional
digits except whole bytes (integral)".  The unit is the largest one reached by
scaling while the value stays at or above 1024; when even the GB-scaled value
is not below 1024 no unit qualifies, and the rendering is undefined (`none`). -/
def formatBytesSpec (n : Nat) : Option String :=
  if n < 1024 then some (toString n ++ " B")
  else if (n : ℚ) / 1024 < 1024 then some (toFixed 2 ((n : ℚ) / 1024) ++ " KB")
  else if (n : ℚ) / (1024 * 1024) < 1024 then some (toFixed 2 ((n : ℚ) / (1024 * 1024)) ++ " MB")
  else if (n : ℚ) / (1024 * 1024 * 1024) < 1024 then
    some (toFixed 2 ((n : ℚ) / (1024 * 1024 * 1024)) ++ " GB")
  else none

/-! ## Helper lemmas -/

theorem lookupEvent_bumpEvent (k : String) (l : List (String × Nat)) :
    lookupEvent k (bumpEvent k l) = some ((lookupEvent k l).getD 0 + 1) := by
  induction l with
  | nil => simp [bumpEvent, lookupEvent]
  | cons hd tl ih =>
    obtain ⟨k', v⟩ := hd
    by_cases h : k' = k
    · simp [bumpEvent, lookupEvent, h]
    · simp [bumpEvent, lookupEvent, h, ih]

/-! ## Claims -/

/-- C10: calling `getMetrics` with the empty string as the event tag is the
same pure read as calling it with the tag omitted: the empty string is falsy,
so neither `pageViews` nor any `customEvents` entry is touched and the same
snapshot and summary are returned. -/
theorem getMetrics_empty_tag_pure_read :
    ∀ m : BackendMetrics, getMetrics (some "") m = getMetrics none m :=
  fun _ => rfl

/-- C8: a tagless `getMetrics` read leaves the state unchanged, so two
consecutive tagless reads with no intervening events return equal results
(equal formatted snapshots and equal summaries). -/
theorem getMetrics_idempotent_read :
    ∀ m : BackendMetrics,
      (getMetrics none ((getMetrics none m).2)).1 = (getMetrics none m).1 ∧
      (getMetrics none m).2 = m :=
  fun _ => ⟨rfl, rfl⟩

/-- C5 (counterexample): at a state with one uncaught exception the faults family
labels the summary `"Runtime errors detected"`, not the claimed
`"Runtime faults detected"`. -/
theorem errors_label_counterexample :
    (summarizeMetrics { initMetrics with
        errorCounts := { uncaughtExceptions := 1, unhandledRejections := 0 } }).errors.status
        = "Runtime errors detected" ∧
      "Runtime errors detected" ≠ "Runtime faults detected" :=
  ⟨rfl, by decide⟩

/-- C5 (amended): for every metrics state the faults family reports
`"Runtime errors detected"` iff `uncaughtExceptions + unhandledRejections > 0`
and `"No runtime errors"` iff that sum is 0. -/
theorem errors_family_status :
    ∀ m : BackendMetrics,
      ((summarizeMetrics m).errors.status = "Runtime errors detected" ↔
        0 < m.errorCounts.uncaughtExceptions + m.errorCounts.unhandledRejections) ∧
      ((summarizeMetrics m).errors.status = "No runtime errors" ↔
        m.errorCounts.uncaughtExceptions + m.errorCounts.unhandledRejections = 0) := by
  intro m
  have hne : ("Runtime errors detected" : String) ≠ "No runtime errors" := by decide
  show ((errorsSummary m).status = _ ↔ _) ∧ ((errorsSummary m).status = _ ↔ _)
  unfold errorsSummary
  split_ifs with h
  · exact ⟨⟨fun _ => h, fun _ => rfl⟩, ⟨fun he => absurd he hne, fun hs => by omega⟩⟩
  · exact ⟨⟨fun he => absurd he.symm hne, fun hs => absurd hs h⟩, ⟨fun _ => by omega, fun _ => rfl⟩⟩

/-- The state after three `getMetrics("pageView")` calls starting from the
freshly initialized collector state. -/
def pageView3State : BackendMetrics :=
  (getMetrics (some "pageView")
    ((getMetrics (some "pageView") ((getMetrics (some "pageView") initMetrics).2)).2)).2

/-- C2: `getMetrics "pageView"` increments exactly `pageViews` (by 1, before
the summary is computed from the updated state); any other non-empty tag `t`
increments exactly `customEvents[t]` (starting it at its first occurrence)
and leaves `pageViews` unchanged; an omitted tag changes no field; and three
`"pageView"` calls from the initial state followed by a tagless read report
`pageViews = 3` with usage status `"User activity detected"`. -/
theorem getMetrics_tag_semantics (m : BackendMetrics) (t : String) (h1 : t ≠ "")
    (h2 : t ≠ "pageView") :
    (getMetrics (some "pageView") m).2
        = { m with userMetrics := { m.userMetrics with pageViews := m.userMetrics.pageViews + 1 } } ∧
    (getMetrics (some "pageView") m).1.summary = summarizeMetrics ((getMetrics (some "pageView") m).2) ∧
    (getMetrics (some t) m).2
        = { m with userMetrics :=
            { m.userMetrics with customEvents := bumpEvent t m.userMetrics.customEvents } } ∧
    lookupEvent t ((getMetrics (some t) m).2.userMetrics.customEvents)
        = some ((lookupEvent t m.userMetrics.customEvents).getD 0 + 1) ∧
    (getMetrics (some t) m).2.userMetrics.pageViews = m.userMetrics.pageViews ∧
    (getMetrics none m).2 = m ∧
    (getMetrics none pageView3State).1.summary.userMetrics.pageViews = 3 ∧
    (getMetrics none pageView3State).1.summary.userMetrics.status = "User activity detected" := by
  have htag : (getMetrics (some t) m).2
      = { m with userMetrics :=
          { m.userMetrics with customEvents := bumpEvent t m.userMetrics.customEvents } } := by
    show applyTag (some t) m = _
    simp only [applyTag]
    rw [if_neg h1, if_neg h2]
  refine ⟨rfl, rfl, htag, ?_, ?_, rfl, rfl, rfl⟩
  · rw [htag]
    exact lookupEvent_bumpEvent t m.userMetrics.customEvents
  · rw [htag]

/-- C2 (witness): the hypotheses of `getMetrics_tag_semantics` hold at the
tag `"click"`, which starts its counter at 1 on first occurrence. -/
theorem getMetrics_tag_semantics_witness :
    ("click" : String) ≠ "" ∧ ("click" : String) ≠ "pageView" ∧
      lookupEvent "click" ((getMetrics (some "click") initMetrics).2.userMetrics.customEvents)
        = some 1 := by
  refine ⟨by decide, by decide, ?_⟩
  exact (getMetrics_tag_semantics initMetrics "click" (by decide) (by decide)).2.2.2.1

/-- The state built by the request-timing hook from five responses with
statuses 200, 200, 404, 500, 200 (with concrete durations). -/
def requestsExample : BackendMetrics :=
  [((200 : Nat), (12 : ℚ)), (200, 8), (404, 30), (500, 45), (200, 20)].foldl
    (fun m p => recordRequest p.1 p.2 m) initMetrics

/-- C1: the HTTP family renders the error rate
`errorCount / totalCount * 100` (0 when `totalCount = 0`) with one fractional
digit, and reports `"Needs attention"` iff that rate exceeds 5 or the average
of all recorded request durations exceeds 500 ms; the state built from
statuses 200, 200, 404, 500, 200 has `totalCount = 5`, `errorCount = 2` and
error rate `"40.0%"`. -/
theorem http_family_status :
    (∀ m : BackendMetrics,
      (summarizeMetrics m).http.total = m.httpRequests.totalCount ∧
      (summarizeMetrics m).http.errors = m.httpRequests.errorCount ∧
      (summarizeMetrics m).http.errorRate = toFixed 1 (httpErrRate m) ++ "%" ∧
      ((summarizeMetrics m).http.status = "Needs attention" ↔
        httpErrRate m > 5 ∨ avgReqMs m > 500)) ∧
    requestsExample.httpRequests.totalCount = 5 ∧
    requestsExample.httpRequests.errorCount = 2 ∧
    (summarizeMetrics requestsExample).http.errorRate = "40.0%" := by
  refine ⟨fun m => ⟨rfl, rfl, rfl, ?_⟩, rfl, rfl, ?_⟩
  · have hne : ("OK" : String) ≠ "Needs attention" := by decide
    show (httpSummary m).status = _ ↔ _
    unfold httpSummary
    split_ifs with h
    · exact ⟨fun _ => h, fun _ => rfl⟩
    · exact ⟨fun he => absurd he hne, fun hd => absurd hd h⟩
  · have hreq : requestsExample.httpRequests = ⟨5, 2, [12, 8, 30, 45, 20]⟩ := rfl
    have h40 : httpErrRate requestsExample = 40 := by
      simp only [httpErrRate, hreq]
      norm_num
    show toFixed 1 (httpErrRate requestsExample) ++ "%" = "40.0%"
    rw [h40]
    norm_num [toFixed]
    decide

/-- A state whose recorded GC pauses are 10, 20 and 90 ms. -/
def gcExample : BackendMetrics :=
  { initMetrics with garbageCollections :=
      [{ type := none, durationMs := 10, timestamp := 0 },
       { type := none, durationMs := 20, timestamp := 0 },
       { type := none, durationMs := 90, timestamp := 0 }] }

/-- A state with a single recorded GC pause of 50.01 ms. -/
def gcBoundary : BackendMetrics :=
  { initMetrics with garbageCollections := [{ type := none, durationMs := 50.01, timestamp := 0 }] }

/-- C6: the GC family reports the average pause over all recorded GC events
(0 when none) and labels the summary `"GC is slow"` iff that average exceeds
50 ms; durations 10, 20, 90 average to 40 ms and give `"GC OK"`, while an
average of 50.01 ms gives `"GC is slow"`. -/
theorem gc_family_status :
    (∀ m : BackendMetrics,
      (summarizeMetrics m).gc.avgPause = formatMs (gcAvgMs m) ∧
      ((summarizeMetrics m).gc.status = "GC is slow" ↔ gcAvgMs m > 50)) ∧
    gcAvgMs gcExample = 40 ∧
    (summarizeMetrics gcExample).gc.status = "GC OK" ∧
    (summarizeMetrics gcExample).gc.avgPause = "40.00 ms" ∧
    gcAvgMs gcBoundary = 50.01 ∧
    (summarizeMetrics gcBoundary).gc.status = "GC is slow" := by
  have h40 : gcAvgMs gcExample = 40 := by
    norm_num [gcAvgMs, gcExample, avg]
  have h5001 : gcAvgMs gcBoundary = 50.01 := by
    norm_num [gcAvgMs, gcBoundary, avg]
  refine ⟨fun m => ⟨rfl, ?_⟩, h40, ?_, ?_, h5001, ?_⟩
  · have hne : ("GC OK" : String) ≠ "GC is slow" := by decide
    show (gcSummary m).status = _ ↔ _
    unfold gcSummary
    split_ifs with h
    · exact ⟨fun _ => h, fun _ => rfl⟩
    · exact ⟨fun he => absurd he hne, fun hd => absurd hd h⟩
  · have hn : ¬ gcAvgMs gcExample > 50 := by rw [h40]; norm_num
    show (gcSummary gcExample).status = "GC OK"
    unfold gcSummary
    rw [if_neg hn]
  · show formatMs (gcAvgMs gcExample) = "40.00 ms"
    rw [h40]
    norm_num [formatMs, toFixed]
    decide
  · have hp : gcAvgMs gcBoundary > 50 := by rw [h5001]; norm_num
    show (gcSummary gcBoundary).status = "GC is slow"
    unfold gcSummary
    rw [if_pos hp]

/-- An event-loop sample whose rolled-up mean is 100 ms. -/
def loopSample : EventLoopSample :=
  { meanMs := 100, maxMs := 120, minMs := 1, p50Ms := 2, p99Ms := 3, timestamp := 0 }

def loopState : BackendMetrics := { initMetrics with eventLoopDelays := [loopSample] }

def loopStateV1 : BackendMetricsV1 := { initMetricsV1 with eventLoopDelays := [loopSample] }

/-- C3: in the current variant the event-loop family reports the `meanMs` of
the last recorded sample (0 when none) and labels the summary
`"Event-loop lag"` iff that mean exceeds 50 ms — a 100 ms sample yields
`"100.00 ms"` and `"Event-loop lag"`.  The older variant destructures the
absent fields `mean`/`max` instead of `meanMs`/`maxMs`, so on the very same
sample it reports `"0.00 ms"` and `"Loop OK"`: the claim's "holds for both
backend collector variants" fails on the older variant. -/
theorem eventLoop_family_divergence :
    (∀ m : BackendMetrics,
      (summarizeMetrics m).eventLoop.meanDelay = formatMs (lastLoopMean m) ∧
      ((summarizeMetrics m).eventLoop.status = "Event-loop lag" ↔ lastLoopMean m > 50)) ∧
    lastLoopMean loopState = 100 ∧
    (summarizeMetrics loopState).eventLoop.status = "Event-loop lag" ∧
    (summarizeMetrics loopState).eventLoop.meanDelay = "100.00 ms" ∧
    (summarizeMetricsV1 1 loopStateV1).eventLoop.status = "Loop OK" ∧
    (summarizeMetricsV1 1 loopStateV1).eventLoop.meanDelay = "0.00 ms" := by
  have hl : lastLoopMean loopState = 100 := rfl
  refine ⟨fun m => ⟨rfl, ?_⟩, hl, ?_, ?_, ?_, ?_⟩
  · have hne : ("Loop OK" : String) ≠ "Event-loop lag" := by decide
    show (eventLoopSummary m).status = _ ↔ _
    unfold eventLoopSummary
    split_ifs with h
    · exact ⟨fun _ => h, fun _ => rfl⟩
    · exact ⟨fun he => absurd he hne, fun hd => absurd hd h⟩
  · have hp : lastLoopMean loopState > 50 := by rw [hl]; norm_num
    show (eventLoopSummary loopState).status = "Event-loop lag"
    unfold eventLoopSummary
    rw [if_pos hp]
  · show formatMs (lastLoopMean loopState) = "100.00 ms"
    rw [hl]
    norm_num [formatMs, toFixed]
    decide
  · show (eventLoopSummaryV1 loopStateV1).status = "Loop OK"
    simp only [eventLoopSummaryV1]
    norm_num
  · show (eventLoopSummaryV1 loopStateV1).meanDelay = "0.00 ms"
    simp only [eventLoopSummaryV1]
    norm_num [formatMs, toFixed]
    decide

/-- Fixed-point renderings of 0, shared by the empty-state evaluations. -/
theorem toFixed_one_zero : toFixed 1 0 = "0.0" := by
  norm_num [toFixed]
  decide

theorem toFixed_two_zero : toFixed 2 0 = "0.00" := by
  norm_num [toFixed]
  decide

theorem formatMs_zero : formatMs 0 = "0.00 ms" := by
  norm_num [formatMs, toFixed]
  decide

/-- C4 (counterexample): on the empty state the faults family's healthy label
is `"No runtime errors"`, not the claimed `"No runtime faults"`; and the older
variant's summarizer, whose empty-state default `{ memory: {}, cpu: {} }` has
no `rss` field, renders the NaN strings `"NaN%"` and `"NaN GB"` for the
process family instead of zero figures. -/
theorem empty_state_labels_counterexample :
    (summarizeMetrics initMetrics).errors.status = "No runtime errors" ∧
    "No runtime errors" ≠ "No runtime faults" ∧
    (summarizeMetricsV1 1 initMetricsV1).process.memoryPct = "NaN%" ∧
    (summarizeMetricsV1 1 initMetricsV1).process.memoryUsage = "NaN GB" ∧
    (summarizeMetricsV1 1 initMetricsV1).process.cpuPct = "NaN%" :=
  ⟨rfl, by decide, rfl, rfl, rfl⟩

/-- C4 (amended): summarizing the freshly initialized (empty) state of the
current variant fails nowhere and renders only zero-valued figures and the
healthy labels, `"No runtime errors"` being the faults label; every guarded
rate and average evaluates to exactly 0. -/
theorem empty_state_summary :
    httpErrRate initMetrics = 0 ∧
    avgReqMs initMetrics = 0 ∧
    gcAvgMs initMetrics = 0 ∧
    lastLoopMean initMetrics = 0 ∧
    memPct initMetrics = 0 ∧
    cpuPct initMetrics = 0 ∧
    (summarizeMetrics initMetrics).http = ⟨0, 0, "0.0%", "0.00 ms", "OK"⟩ ∧
    (summarizeMetrics initMetrics).gc = ⟨"0.00 ms", "0.00 ms", "GC OK"⟩ ∧
    (summarizeMetrics initMetrics).eventLoop = ⟨"0.00 ms", "0.00 ms", "Loop OK"⟩ ∧
    (summarizeMetrics initMetrics).process = ⟨"0 B", "0.0%", "0.0%", "Resource use OK"⟩ ∧
    (summarizeMetrics initMetrics).os = ⟨"0.00", "0 B", "OS load OK"⟩ ∧
    (summarizeMetrics initMetrics).handles = ⟨0, "Handles OK"⟩ ∧
    (summarizeMetrics initMetrics).errors = ⟨0, 0, "No runtime errors"⟩ ∧
    (summarizeMetrics initMetrics).userMetrics = ⟨0, 0, [], "No user activity"⟩ := by
  have hcpu : cpuPct initMetrics = 0 := by
    norm_num [cpuPct, lastCpuTotal, lastCores, initMetrics]
  refine ⟨rfl, rfl, rfl, rfl, ?_, hcpu, ?_, ?_, ?_, ?_, ?_, rfl, rfl, rfl⟩
  · norm_num [memPct, lastRss, lastTotalMem, initMetrics]
  · show httpSummary initMetrics = _
    unfold httpSummary
    rw [show httpErrRate initMetrics = 0 from rfl, show avgReqMs initMetrics = 0 from rfl,
      toFixed_one_zero, formatMs_zero, if_neg (by norm_num : ¬((0 : ℚ) > 5 ∨ (0 : ℚ) > 500))]
    rfl
  · show gcSummary initMetrics = _
    unfold gcSummary
    rw [show gcAvgMs initMetrics = 0 from rfl,
      show listMax (initMetrics.garbageCollections.map (·.durationMs)) = 0 from rfl,
      formatMs_zero, if_neg (by norm_num : ¬(0 : ℚ) > 50)]
  · show eventLoopSummary initMetrics = _
    unfold eventLoopSummary
    rw [show lastLoopMean initMetrics = 0 from rfl, show lastLoopMax initMetrics = 0 from rfl,
      formatMs_zero, if_neg (by norm_num : ¬(0 : ℚ) > 50)]
  · show processSummary initMetrics = _
    unfold processSummary
    rw [show memPct initMetrics = (0 : ℚ) from by norm_num [memPct, lastRss, lastTotalMem, initMetrics],
      hcpu, toFixed_one_zero, if_neg (by norm_num : ¬((0 : ℚ) > 80 ∨ (0 : ℚ) > 80))]
    rfl
  · show osSummary initMetrics = _
    unfold osSummary
    rw [show lastLoadAvg initMetrics = [0] from rfl, show lastFreeMem initMetrics = 0 from rfl,
      show lastCores initMetrics = 1 from rfl]
    rw [show formatLoadAvg [0] = "0.00" from by rw [show formatLoadAvg [0] = toFixed 2 0 from rfl, toFixed_two_zero]]
    norm_num
    rfl

/-- C9 (counterexample): at 1024⁴ bytes no unit of B/KB/MB/GB scales the
count below 1024 — the spec-side rendering is undefined — yet `formatBytes`
renders `"1024.00 GB"`, whose GB-scaled value 1024 is not below 1024. -/
theorem formatBytes_unit_counterexample :
    formatBytesSpec 1099511627776 = none ∧
    formatBytes 1099511627776 = "1024.00 GB" ∧
    ¬ ((1099511627776 : ℚ) / (1024 * 1024 * 1024) < 1024) := by
  refine ⟨?_, ?_, by norm_num⟩
  · norm_num [formatBytesSpec]
  · norm_num [formatBytes, toFixed]
    decide

/-- C9 (amended): `formatBytes` renders a byte count in the largest unit of
B/KB/MB/GB whose scaled value is below 1024 — whole bytes integral, 2
fractional digits otherwise — falling back to GB when even the GB-scaled
value is at least 1024; with the claimed concrete values. -/
theorem formatBytes_correct :
    (∀ n : Nat,
      formatBytes n = (formatBytesSpec n).getD (toFixed 2 ((n : ℚ) / (1024 * 1024 * 1024)) ++ " GB")) ∧
    formatBytes 0 = "0 B" ∧
    formatBytes 1023 = "1023 B" ∧
    formatBytes 1024 = "1.00 KB" ∧
    formatBytes 1048576 = "1.00 MB" ∧
    formatBytes 1073741824 = "1.00 GB" := by
  refine ⟨?_, rfl, rfl, ?_, ?_, ?_⟩
  · intro n
    unfold formatBytes formatBytesSpec
    by_cases h1 : n < 1024
    · rw [if_pos h1, if_pos h1]
      rfl
    · rw [if_neg h1, if_neg h1]
      by_cases h2 : n < 1024 * 1024
      · have h2' : (n : ℚ) / 1024 < 1024 := by
          rw [div_lt_iff₀ (by norm_num : (0 : ℚ) < 1024)]
          exact_mod_cast h2
        rw [if_pos h2, if_pos h2']
        rfl
      · have h2' : ¬ (n : ℚ) / 1024 < 1024 := by
          rw [div_lt_iff₀ (by norm_num : (0 : ℚ) < 1024)]
          exact_mod_cast h2
        rw [if_neg h2, if_neg h2']
        by_cases h3 : n < 1024 * 1024 * 1024
        · have h3' : (n : ℚ) / (1024 * 1024) < 1024 := by
            rw [div_lt_iff₀ (by norm_num : (0 : ℚ) < 1024 * 1024)]
            exact_mod_cast h3
          rw [if_pos h3, if_pos h3']
          rfl
        · have h3' : ¬ (n : ℚ) / (1024 * 1024) < 1024 := by
            rw [div_lt_iff₀ (by norm_num : (0 : ℚ) < 1024 * 1024)]
            exact_mod_cast h3
          rw [if_neg h3, if_neg h3']
          by_cases h4 : (n : ℚ) / (1024 * 1024 * 1024) < 1024
          · rw [if_pos h4]
            rfl
          · rw [if_neg h4]
            rfl
  · norm_num [formatBytes, toFixed]
    decide
  · norm_num [formatBytes, toFixed]
    decide
  · norm_num [formatBytes, toFixed]
    decide
